import Mathlib

/-!
Verification of the Zynapse procedure-dispatch and connection-lifecycle
runtime against its natural-language specification.

The definitions below are a shallow embedding of the TypeScript sources:
  * `ServiceImplementationBuilder` and its `build` method
    (src/server/index.ts, latest revision),
  * the dispatcher `Server.buildHandler` / route table (src/server/index.ts),
  * the server-push `Connection` / `ConnectionWritter` (connection.ts,
    latest revision with `closed` flag and keepalive timer),
  * the full-duplex `BidirectionalConnection` (connection.ts).

JavaScript objects are embedded as ordered association lists with
JS-assignment semantics (`objSet` overwrites in place; the spread
`{...a, ...b}` is `objAssign`).  Zod schemas are embedded as parse
functions `JVal → Except String JVal` (`safeParseAsync`: an error message
or the typed/transformed value).  Exceptions are `Except`; `async`
rejection is the `.error` case.
-/

namespace Zynapse

/-- JSON values, the data carried in request envelopes and messages. -/
inductive JVal where
  | null
  | str (s : String)
  | num (n : Int)
  | boolVal (b : Bool)
  | obj (fields : List (String × JVal))
  | arr (elems : List JVal)

-- `JSON.stringify` on the embedded JSON values.
mutual
def jsonStringify : JVal → String
  | .null => "null"
  | .str s => "\"" ++ s ++ "\""
  | .num n => toString n
  | .boolVal b => cond b "true" "false"
  | .arr es => "[" ++ jsonArr es ++ "]"
  | .obj fs => "\x7b" ++ jsonObj fs ++ "\x7d"

def jsonArr : List JVal → String
  | [] => ""
  | [v] => jsonStringify v
  | v :: rest => jsonStringify v ++ "," ++ jsonArr rest

def jsonObj : List (String × JVal) → String
  | [] => ""
  | [(k, v)] => "\"" ++ k ++ "\":" ++ jsonStringify v
  | (k, v) :: rest => "\"" ++ k ++ "\":" ++ jsonStringify v ++ "," ++ jsonObj rest
end

/-- A zod schema embedded as its `safeParseAsync` behaviour: a validation
error message, or the typed (possibly transformed) value. -/
def SchemaFn : Type := JVal → Except String JVal

/-- The four procedure method kinds. -/
inductive ProcedureType where
  | QUERY
  | MUTATION
  | SUBSCRIPTION
  | BIDIRECTIONAL
  deriving DecidableEq, Repr

/-- A `Procedure` of the schema: name, method kind, input and output schema
(the `description` field plays no role in the runtime and is omitted). -/
structure ProcDef where
  name : String
  method : ProcedureType
  input : SchemaFn
  output : SchemaFn

/-- A `Service` definition: name, procedures keyed by name (a JS object,
hence an ordered association list), and the optional middleware
requirement description. -/
structure ServiceDef where
  name : String
  procedures : List (String × ProcDef)
  middlewareDescription : Option String

/-- JS property read `o[k]`: the value bound to the first (in a JS object:
the only) occurrence of the key, or `undefined` (`none`). -/
def jsGet {α : Type} (o : List (String × α)) (k : String) : Option α :=
  match o with
  | [] => none
  | p :: t => if p.1 = k then some p.2 else jsGet t k

/-- `Array.includes(x)` on a list of strings. -/
def jsIncludes (l : List String) (x : String) : Bool :=
  match l with
  | [] => false
  | a :: t => if a = x then true else jsIncludes t x

/-- A JS function stored in a service-implementation object.  A single JS
function can be called with middleware arguments or with handler
arguments; the two fields give its behaviour under either call. -/
structure HVal where
  asMiddleware : Except String Unit
  asHandler : JVal → Except String JVal

/-- `Service.getProcedure(name)`: plain property lookup `this.procedures[name]`. -/
def ServiceDef.getProcedure (s : ServiceDef) (n : String) : Option ProcDef :=
  jsGet s.procedures n

/-- JS property assignment `o[k] = v`: an existing key keeps its position
and gets the new value, a new key is appended. -/
def objSet {α : Type} (o : List (String × α)) (k : String) (v : α) :
    List (String × α) :=
  match o with
  | [] => [(k, v)]
  | p :: t => if p.1 = k then (k, v) :: t else p :: objSet t k v

/-- JS object spread `{...a, ...b}`: every binding of `b` assigned onto `a`. -/
def objAssign {α : Type} (a b : List (String × α)) : List (String × α) :=
  b.foldl (fun acc p => objSet acc p.1 p.2) a

theorem objAssign_cons {α : Type} (a : List (String × α)) (p : String × α)
    (t : List (String × α)) :
    objAssign a (p :: t) = objAssign (objSet a p.1 p.2) t := rfl

theorem jsIncludes_iff (l : List String) (x : String) :
    jsIncludes l x = true ↔ x ∈ l := by
  induction l with
  | nil => simp [jsIncludes]
  | cons a t ih =>
    by_cases h : a = x
    · simp [jsIncludes, h]
    · have h1 : ¬ (x = a) := fun hx => h hx.symm
      simp [jsIncludes, h, ih, h1]

theorem mem_keys_of_jsGet {α : Type} {t : List (String × α)} {k : String} {w : α}
    (h : jsGet t k = some w) : k ∈ t.map Prod.fst := by
  induction t with
  | nil => simp [jsGet] at h
  | cons p s ih =>
    by_cases hk : p.1 = k
    · simp [hk]
    · rw [jsGet, if_neg hk] at h
      simp only [List.map_cons, List.mem_cons]
      exact Or.inr (ih h)

theorem jsGet_isSome_iff_mem_keys {α : Type} (t : List (String × α)) (k : String) :
    (jsGet t k).isSome ↔ k ∈ t.map Prod.fst := by
  induction t with
  | nil => simp [jsGet]
  | cons p s ih =>
    by_cases hk : p.1 = k
    · simp [jsGet, hk]
    · rw [jsGet, if_neg hk]
      simp only [List.map_cons, List.mem_cons]
      rw [ih]
      constructor
      · exact Or.inr
      · intro h
        cases h with
        | inl he => exact absurd he.symm hk
        | inr hm => exact hm

theorem objSet_jsGet {α : Type} (o : List (String × α)) (k k' : String) (v : α) :
    jsGet (objSet o k v) k' = if k' = k then some v else jsGet o k' := by
  induction o with
  | nil =>
    by_cases h : k' = k
    · simp [objSet, jsGet, h]
    · have h1 : ¬ (k = k') := fun hx => h hx.symm
      simp [objSet, jsGet, h, h1]
  | cons p t ih =>
    by_cases hp : p.1 = k
    · rw [objSet, if_pos hp]
      by_cases hk : k' = k
      · simp [jsGet, hk]
      · have h1 : ¬ (k = k') := fun hx => hk hx.symm
        have h2 : ¬ (p.1 = k') := fun hx => h1 (hp.symm.trans hx)
        simp [jsGet, h1, h2, hk]
    · rw [objSet, if_neg hp]
      by_cases hq : p.1 = k'
      · have hk : ¬ k' = k := fun hx => hp (hq.trans hx)
        simp [jsGet, hq, hk]
      · rw [jsGet, if_neg hq, ih, jsGet, if_neg hq]

theorem objAssign_jsGet_isSome {α : Type} (b : List (String × α)) :
    ∀ (a : List (String × α)) (k : String),
      (jsGet (objAssign a b) k).isSome
        = ((jsGet a k).isSome || (jsGet b k).isSome) := by
  induction b with
  | nil => intro a k; simp [objAssign, jsGet]
  | cons p t ih =>
    intro a k
    rw [objAssign_cons, ih, objSet_jsGet, jsGet]
    by_cases hk : k = p.1
    · have h1 : p.1 = k := hk.symm
      rw [if_pos hk, if_pos h1]
      simp
    · have h1 : ¬ (p.1 = k) := fun hx => hk hx.symm
      rw [if_neg hk, if_neg h1]

theorem objAssign_jsGet_of_none {α : Type} (b : List (String × α)) :
    ∀ (a : List (String × α)) (k : String), jsGet b k = none →
      jsGet (objAssign a b) k = jsGet a k := by
  induction b with
  | nil => intro a k _; rfl
  | cons p t ih =>
    intro a k hnone
    by_cases hk : p.1 = k
    · rw [jsGet, if_pos hk] at hnone
      exact absurd hnone (by simp)
    · rw [jsGet, if_neg hk] at hnone
      rw [objAssign_cons, ih _ _ hnone, objSet_jsGet,
        if_neg (fun hx : k = p.1 => hk hx.symm)]

theorem objAssign_jsGet_of_nodup {α : Type} (b : List (String × α)) :
    ∀ (a : List (String × α)) (k : String) (v : α),
      (b.map Prod.fst).Nodup → jsGet b k = some v →
      jsGet (objAssign a b) k = some v := by
  induction b with
  | nil => intro a k v _ h; simp [jsGet] at h
  | cons p t ih =>
    intro a k v hnodup hlook
    rw [List.map_cons, List.nodup_cons] at hnodup
    rw [objAssign_cons]
    by_cases hk : p.1 = k
    · rw [jsGet, if_pos hk] at hlook
      have htnone : jsGet t k = none := by
        cases ht : jsGet t k with
        | none => rfl
        | some w =>
          have : k ∈ t.map Prod.fst := mem_keys_of_jsGet ht
          rw [← hk] at this
          exact absurd this hnodup.1
      rw [objAssign_jsGet_of_none t _ _ htnone, objSet_jsGet,
        if_pos (hk.symm : k = p.1)]
      exact hlook
    · rw [jsGet, if_neg hk] at hlook
      exact ih _ _ _ hnodup.2 hlook

/-! ### ServiceImplementationBuilder (src/server/index.ts) -/

/-- The mutable state of a `ServiceImplementationBuilder`: the service
schema given to the constructor, the optional middleware set by
`setMiddleware`, and the handlers object filled by
`registerProcedureImplementation`. -/
structure ServiceImplementationBuilder where
  serviceSchema : ServiceDef
  middleware : Option HVal := none
  handlers : List (String × HVal) := []

/-- `registerProcedureImplementation(procedureName, handler)`:
`this.handlers[procedureName] = handler`. -/
def ServiceImplementationBuilder.registerProcedureImplementation
    (b : ServiceImplementationBuilder) (procedureName : String) (handler : HVal) :
    ServiceImplementationBuilder :=
  { b with handlers := objSet b.handlers procedureName handler }

/-- `setMiddleware(middleware)`. -/
def ServiceImplementationBuilder.setMiddleware
    (b : ServiceImplementationBuilder) (middleware : HVal) :
    ServiceImplementationBuilder :=
  { b with middleware := some middleware }

/-- `Object.keys(this.serviceSchema.procedures)` inside `build`. -/
def ServiceImplementationBuilder.requiredProcedureNames
    (b : ServiceImplementationBuilder) : List String :=
  b.serviceSchema.procedures.map Prod.fst

/-- `Object.keys(this.handlers)` inside `build`. -/
def ServiceImplementationBuilder.implementedProcedureNames
    (b : ServiceImplementationBuilder) : List String :=
  b.handlers.map Prod.fst

/-- `requiredProcedureNames.filter((pName) => !implementedProcedureNames.includes(pName))`. -/
def ServiceImplementationBuilder.missingProcedures
    (b : ServiceImplementationBuilder) : List String :=
  b.requiredProcedureNames.filter
    (fun pName => !(jsIncludes b.implementedProcedureNames pName))

/-- The error message thrown by `build` when handlers are missing; it
enumerates every missing procedure name, comma-joined. -/
def ServiceImplementationBuilder.incompleteMessage
    (b : ServiceImplementationBuilder) : String :=
  "Service implementation for \"" ++ b.serviceSchema.name ++
    "\" is incomplete. Missing procedures: " ++
    String.intercalate ", " b.missingProcedures

/-- The `...(this.middleware && {middleware: this.middleware})` part of
the object assembled by `build`. -/
def ServiceImplementationBuilder.middlewareEntry
    (b : ServiceImplementationBuilder) : List (String × HVal) :=
  match b.middleware with
  | some mw => [("middleware", mw)]
  | none => []

/-- The object assembled by `build`:
`{...(this.middleware && {middleware: this.middleware}), ...this.handlers}`
(the handlers are spread last, so a handler stored under the key
`"middleware"` overwrites the middleware entry). -/
def ServiceImplementationBuilder.builtObject
    (b : ServiceImplementationBuilder) : List (String × HVal) :=
  objAssign b.middlewareEntry b.handlers

/-- `ServiceImplementationBuilder.build()`:
1. throw if any schema procedure lacks a handler, enumerating the missing
   names; 2. warn (no effect on the result) about extra handlers; 3. throw
   if the schema requires a middleware and none was set; 4. assemble
   `builtObject`; 5. final safeguard: throw if some required key is absent
   from the result (in JS the check is falsiness, but every stored value
   is a function, hence truthy, so absence is the only way to be falsy). -/
def ServiceImplementationBuilder.build (b : ServiceImplementationBuilder) :
    Except String (List (String × HVal)) :=
  if b.missingProcedures ≠ [] then
    .error b.incompleteMessage
  else if b.serviceSchema.middlewareDescription.isSome && b.middleware.isNone then
    .error ("A middleware for the service " ++ b.serviceSchema.name ++
      " is required but has not been implemented.")
  else
    match b.requiredProcedureNames.find?
        (fun pName => (jsGet b.builtObject pName).isNone) with
    | some pName =>
      .error ("Internal error during build: Procedure \"" ++ pName ++
        "\" handler missing in final object for service \"" ++
        b.serviceSchema.name ++ "\".")
    | none => .ok b.builtObject

/-- The dispatcher's read of the per-service middleware:
`implementationHandler.middleware` in `Server.buildHandler`. -/
def dispatcherMiddleware (implementationHandler : List (String × HVal)) :
    Option HVal :=
  jsGet implementationHandler "middleware"

/-! ### Dispatcher (`Server.buildHandler` / `Server.start`, src/server/index.ts) -/

/-- JS `s.split("/")` for the single-character separator used by the
dispatcher's path check. -/
def splitSlashAux : List Char → List Char → List String
  | [], acc => [String.mk acc.reverse]
  | c :: rest, acc =>
    if c = '/' then String.mk acc.reverse :: splitSlashAux rest []
    else splitSlashAux rest (c :: acc)

def jsSplitSlash (s : String) : List String :=
  splitSlashAux s.toList []

/-- `urlObject.pathname.split("/")[1]` — the path segment the dispatcher
compares against `"_api"`. -/
def pathSegOne (pathname : String) : Option String :=
  (jsSplitSlash pathname).get? 1

/-- An inbound request, as far as the dispatcher observes it:
the URL pathname, the outcome of `JSON.parse(decodeURIComponent(payload))`
when a `payload` search parameter is present, and the outcome of
`await request.json()` otherwise.  A `.error` is a thrown parse error. -/
structure Req where
  pathname : String
  payloadParam : Option (Except Unit JVal)
  bodyJson : Except Unit JVal

/-- Body acquisition in `buildHandler`: the `payload` query parameter when
present, else the request body. -/
def Req.rawBody (r : Req) : Except Unit JVal :=
  match r.payloadParam with
  | some p => p
  | none => r.bodyJson

/-- The parsed `{service, procedure, data}` envelope. -/
structure Envelope where
  service : String
  procedure : String
  data : JVal

/-- One zod issue message of `RequestBodySchema`, or nothing. -/
def envIssue {β : Type} (r : Except String β) : List String :=
  match r with
  | .error e => [e]
  | .ok _ => []

/-- The `procedure: z.string({message: ...})` field check of
`RequestBodySchema`. -/
def parseProcedureField (fields : List (String × JVal)) : Except String String :=
  match jsGet fields "procedure" with
  | some (.str s) => .ok s
  | _ => .error "Procedure is not present in the body"

/-- The `service: z.string({message: ...})` field check of
`RequestBodySchema`. -/
def parseServiceField (fields : List (String × JVal)) : Except String String :=
  match jsGet fields "service" with
  | some (.str s) => .ok s
  | _ => .error "Service is not present in the body"

/-- The `data: z.custom(d => d !== undefined && d !== null, ...)` field
check of `RequestBodySchema` (an absent property is `undefined`). -/
def parseDataField (fields : List (String × JVal)) : Except String JVal :=
  match jsGet fields "data" with
  | some .null => .error "Data must be present"
  | some d => .ok d
  | none => .error "Data must be present"

/-- `RequestBodySchema.safeParseAsync(body)`:
`z.object({procedure: z.string(...), service: z.string(...), data: z.custom(d => d !== undefined && d !== null, ...)})`.
On failure the zod error message aggregates the issues of every failing
field. -/
def parseEnvelope (body : JVal) : Except String Envelope :=
  match body with
  | .obj fields =>
    match parseProcedureField fields, parseServiceField fields,
        parseDataField fields with
    | .ok p, .ok s, .ok d => .ok ⟨s, p, d⟩
    | pr, sr, dr =>
      .error (String.intercalate "; " (envIssue pr ++ envIssue sr ++ envIssue dr))
  | _ => .error "Expected object, received something else"

/-- The body of an HTTP `Response` produced by the dispatcher. -/
inductive RespBody where
  | empty
  | text (s : String)
  | dataJson (v : JVal)
  | eventStream

/-- The dispatcher's observable outcome for one request: HTTP status,
response body, and whether the procedure handler was invoked. -/
structure DResult where
  status : Nat
  body : RespBody
  handlerInvoked : Bool

/-- The `EXECUTE` step: for a SUBSCRIPTION procedure, return the streaming
response immediately while the handler runs detached; otherwise await the
handler, answering 200 with `{data: output}` on success and 500 on a
thrown error. -/
def executeProcedure (pd : ProcDef) (ph : HVal) (args : JVal) : DResult :=
  if pd.method = .SUBSCRIPTION then
    { status := 200, body := .eventStream, handlerInvoked := true }
  else
    match ph.asHandler args with
    | .ok output =>
      { status := 200, body := .dataJson output, handlerInvoked := true }
    | .error e =>
      { status := 500, body := .text ("The endpoint returned an error " ++ e),
        handlerInvoked := true }

/-- A `Server`: the schema (`services` object), the built implementation
objects, and the optional webhook handler. -/
structure Server where
  services : List (String × ServiceDef)
  implementation : List (String × List (String × HVal))
  webhookHandler : Option (Req → DResult) := none

/-- `Server.buildHandler()` (latest revision): prefix check, body/payload
acquisition, `RequestBodySchema` envelope parse, service and procedure
resolution, input validation, middleware, then `executeProcedure`. -/
def Server.handleRequest (sv : Server) (req : Req) : DResult :=
  if pathSegOne req.pathname ≠ some "_api" then
    { status := 400, body := .empty, handlerInvoked := false }
  else
    match req.rawBody with
    | .error _ =>
      { status := 500, body := .text "Request cannot be parsed at the moment",
        handlerInvoked := false }
    | .ok body =>
      match parseEnvelope body with
      | .error msg =>
        { status := 400, body := .text msg, handlerInvoked := false }
      | .ok env =>
        match jsGet sv.services env.service, jsGet sv.implementation env.service with
        | some serviceDefinition, some implementationHandler =>
          (match jsGet implementationHandler env.procedure,
              serviceDefinition.getProcedure env.procedure with
           | some procedureHandler, some procedureDefinition =>
             (match procedureDefinition.input env.data with
              | .error e =>
                { status := 400,
                  body := .text ("The input has failed the validation: " ++ e),
                  handlerInvoked := false }
              | .ok args =>
                (match dispatcherMiddleware implementationHandler with
                 | some mw =>
                   (match mw.asMiddleware with
                    | .error _ =>
                      { status := 500, body := .empty, handlerInvoked := false }
                    | .ok _ => executeProcedure procedureDefinition procedureHandler args)
                 | none => executeProcedure procedureDefinition procedureHandler args))
           | _, _ =>
             { status := 404,
               body := .text ("The procedure " ++ env.procedure ++ " doesn't exist"),
               handlerInvoked := false })
        | _, _ =>
          { status := 404,
            body := .text ("The service " ++ env.service ++ " doesn't exist"),
            handlerInvoked := false }

/-- The route table installed by `Server.start`: the static routes
`"/_api"` and `"/_api/webhook"`, and the `fetch` fallback answering 404
to every other path. -/
def Server.routeRequest (sv : Server) (req : Req) : DResult :=
  if req.pathname = "/_api" then
    sv.handleRequest req
  else if req.pathname = "/_api/webhook" then
    match sv.webhookHandler with
    | some h => h req
    | none => { status := 404, body := .empty, handlerInvoked := false }
  else
    { status := 404, body := .empty, handlerInvoked := false }

/-! ### Server-push connection (`Connection` / `ConnectionWritter`, connection.ts) -/

/-- The `ReadableStream<string>` with its captured controller: the frames
enqueued so far and whether the controller has been closed.  (Web-streams
semantics: `enqueue` and `close` on a closed controller throw.) -/
structure Connection where
  frames : List String
  streamClosed : Bool

/-- `new Connection()`: the constructor enqueues the `": Connected\n\n"`
comment frame on stream start. -/
def Connection.new : Connection :=
  { frames := [": Connected\n\n"], streamClosed := false }

/-- `controller.enqueue(s)`: throws (`.error`) on a closed controller. -/
def Connection.enqueue (c : Connection) (s : String) : Except Unit Connection :=
  if c.streamClosed then .error ()
  else .ok { c with frames := c.frames ++ [s] }

/-- `controller.close()`: throws (`.error`) on an already-closed controller. -/
def Connection.closeController (c : Connection) : Except Unit Connection :=
  if c.streamClosed then .error ()
  else .ok { c with streamClosed := true }

/-- The state of a `ConnectionWritter`: the wrapped connection, the
`closed` flag, whether the 30-second keepalive interval is still
scheduled, and the console log. -/
structure ConnectionWritter where
  connection : Connection
  procedureDefinition : ProcDef
  closed : Bool
  timerActive : Bool
  log : List String

/-- The `ConnectionWritter` constructor: captures the controller's
`close`/`enqueue`, starts unclosed, and schedules the keepalive interval. -/
def ConnectionWritter.new (conn : Connection) (procDefinition : ProcDef) :
    ConnectionWritter :=
  { connection := conn, procedureDefinition := procDefinition,
    closed := false, timerActive := true, log := [] }

/-- `ConnectionWritter.close()`: if already closed, log and return;
otherwise best-effort enqueue the close frame (its throw is caught and
logged), clear the keepalive interval, close the controller, and set the
`closed` flag.  The `closeFn()` call is outside any try/catch: if the
controller is already closed it throws, which is the returned `Bool`
(and then the `closed` flag is never set). -/
def ConnectionWritter.close (c : ConnectionWritter) : ConnectionWritter × Bool :=
  if c.closed then
    ({ c with log := c.log ++ ["The connection has been already closed"] }, false)
  else
    let c1 :=
      match c.connection.enqueue "event: close\ndata: close\n\n" with
      | .ok conn => { c with connection := conn }
      | .error _ =>
        { c with log := c.log ++
            ["[ZYNAPSE SUBSCRIPTION] Failed to send close connection event, has the connection already closed?"] }
    let c2 := { c1 with timerActive := false }
    match c2.connection.closeController with
    | .ok conn => ({ c2 with connection := conn, closed := true }, false)
    | .error _ => (c2, true)

/-- `ConnectionWritter.write(message)`: log (but do not return) if the
`closed` flag is set; then `JSON.stringify` the message and enqueue a
content frame inside try/catch, logging on a thrown enqueue.  (The
`streamController === undefined` guard can never fire — the constructor
throws if no controller was captured — and is omitted.) -/
def ConnectionWritter.write (c : ConnectionWritter) (message : JVal) :
    ConnectionWritter :=
  let c1 :=
    if c.closed then
      { c with log := c.log ++ ["Attepted to write on closed function."] }
    else c
  match c1.connection.enqueue
      ("event: content\ndata: " ++ jsonStringify message ++ "\n\n") with
  | .ok conn => { c1 with connection := conn }
  | .error _ => { c1 with log := c1.log ++ ["Error at write method."] }

/-- One firing of the keepalive interval: when the interval is still
scheduled, enqueue the keepalive comment frame (a throw on a closed
controller escapes the interval callback; the state is unchanged). -/
def ConnectionWritter.keepaliveTick (c : ConnectionWritter) : ConnectionWritter :=
  if c.timerActive then
    match c.connection.enqueue ": keepalive\n\n" with
    | .ok conn => { c with connection := conn }
    | .error _ => c
  else c

/-- The operations a `ConnectionWritter` is subjected to. -/
inductive WriterOp where
  | write (message : JVal)
  | close
  | keepaliveTick

def ConnectionWritter.step (c : ConnectionWritter) : WriterOp → ConnectionWritter
  | .write m => c.write m
  | .close => (c.close).1
  | .keepaliveTick => c.keepaliveTick

def ConnectionWritter.run (c : ConnectionWritter) (ops : List WriterOp) :
    ConnectionWritter :=
  ops.foldl ConnectionWritter.step c

/-! ### Full-duplex connection (`BidirectionalConnection`, connection.ts) -/

/-- The upgraded WebSocket: every payload passed to `send` (the
socket-send spy), the frames actually transmitted, and whether the socket
is open.  `send` on a closed socket silently drops the payload (Bun
returns 0), it neither throws nor logs. -/
structure WebSock where
  sendCalls : List String
  sentFrames : List String
  isOpen : Bool

def WebSock.send (ws : WebSock) (s : String) : WebSock :=
  let ws1 := { ws with sendCalls := ws.sendCalls ++ [s] }
  if ws1.isOpen then { ws1 with sentFrames := ws1.sentFrames ++ [s] } else ws1

/-- A named inbound-message listener registered through
`addOnMessageListener`: its name and the behaviour of its async callback
on the typed message (`.error` is a rejected promise, caught and logged
by the wrapper the source installs around it). -/
structure MsgListener where
  name : String
  callback : JVal → Except String Unit

/-- Modelled from the spec: a close listener registered through
`addOnCloseMessageListener`, which is documented (docs and §4.6 of the
spec) but absent from the sources; only its async callback's outcome is
relevant. -/
structure CloseListener where
  callback : Except String Unit

/-- The state of a `BidirectionalConnection`.  `msgInvocations` is the
trace of message-listener invocations (listener name, typed message);
`closeInvocations` the trace of close-listener invocations (by
registration index).  The `closeListeners`/`closed` fields belong to the
spec-modelled close machinery (see `BidirectionalConnection.close`). -/
structure BidirectionalConnection where
  procDefinition : ProcDef
  connection : WebSock
  msgListeners : List MsgListener := []
  closeListeners : List CloseListener := []
  closed : Bool := false
  log : List String := []
  msgInvocations : List (String × JVal) := []
  closeInvocations : List Nat := []

/-- The `BidirectionalConnection` constructor: a fresh event target (no
listeners), bound to the upgraded socket. -/
def BidirectionalConnection.new (pd : ProcDef) (ws : WebSock) :
    BidirectionalConnection :=
  { procDefinition := pd, connection := ws }

/-- `sendMessage(msg)`: validate against the procedure's **output**
schema; on failure log the validation error and return without sending;
on success `send` the JSON-serialised parsed value (one frame). -/
def BidirectionalConnection.sendMessage (b : BidirectionalConnection)
    (msg : JVal) : BidirectionalConnection :=
  match b.procDefinition.output msg with
  | .error e =>
    { b with log := b.log ++
        ["[ZYNAPSE] The message to be sent to the connection does not conform to the schema.\nMessage: "
          ++ jsonStringify msg ++ "\nError: " ++ e] }
  | .ok d => { b with connection := b.connection.send (jsonStringify d) }

/-- `addOnMessageListener(callable)`: registers one more listener on the
`"msg"` event (each registration installs a fresh wrapper closure, so
`EventTarget` never deduplicates them). -/
def BidirectionalConnection.addOnMessageListener (b : BidirectionalConnection)
    (callable : MsgListener) : BidirectionalConnection :=
  { b with msgListeners := b.msgListeners ++ [callable] }

/-- Dispatch of one `"msg"` event to one registered wrapper: the wrapper
invokes the callback with the connection and the typed message, catching
and logging a rejection. -/
def dispatchToListener (acc : BidirectionalConnection) (l : MsgListener)
    (typed : JVal) : BidirectionalConnection :=
  let acc1 := { acc with msgInvocations := acc.msgInvocations ++ [(l.name, typed)] }
  match l.callback typed with
  | .ok _ => acc1
  | .error e =>
    { acc1 with log := acc1.log ++
        ["[ZYNAPSE] The websocket handler of name " ++ l.name ++
          " defined by procedure " ++ acc.procDefinition.name ++
          " had an error while executing.\nError: " ++ e] }

/-- `_onClientMessage(msg)`: validate against the procedure's **input**
schema; on failure throw the structured error (nothing is dispatched); on
success dispatch the `"msg"` event, invoking every registered listener in
registration order. -/
def BidirectionalConnection._onClientMessage (b : BidirectionalConnection)
    (msg : JVal) : Except String BidirectionalConnection :=
  match b.procDefinition.input msg with
  | .error e =>
    .error ("The procedure " ++ b.procDefinition.name ++
      " received an invalid payload.\nError: " ++ e)
  | .ok typed =>
    .ok (b.msgListeners.foldl (fun acc l => dispatchToListener acc l typed) b)

/-- Modelled from the spec: `addOnCloseMessageListener(callback)` —
documented in the server guide but absent from the sources — registers
one more close listener. -/
def BidirectionalConnection.addOnCloseMessageListener
    (b : BidirectionalConnection) (callable : CloseListener) :
    BidirectionalConnection :=
  { b with closeListeners := b.closeListeners ++ [callable] }

/-- Modelled from the spec: the invocation of one registered close
listener during `close` — recorded in the trace by registration index,
its rejection caught and logged (error isolation). -/
def closeListenerStep (acc : BidirectionalConnection)
    (il : Nat × CloseListener) : BidirectionalConnection :=
  let acc1 := { acc with closeInvocations := acc.closeInvocations ++ [il.1] }
  match il.2.callback with
  | .ok _ => acc1
  | .error e =>
    { acc1 with log := acc1.log ++
        ["[ZYNAPSE] A close listener had an error while executing: " ++ e] }

/-- Modelled from the spec: `close(reason?)` of the duplex connection is
absent from the sources; per §4.6 it is idempotent, triggers every
registered close listener exactly once, each independently
error-isolated, then closes the underlying socket and marks the
connection closed. -/
def BidirectionalConnection.close (b : BidirectionalConnection) :
    BidirectionalConnection :=
  if b.closed then b
  else
    let b1 := b.closeListeners.enum.foldl closeListenerStep b
    { b1 with connection := { b1.connection with isOpen := false }, closed := true }

/-- The operations a `BidirectionalConnection` is subjected to. -/
inductive DuplexOp where
  | sendMessage (msg : JVal)
  | clientMessage (msg : JVal)
  | addListener (l : MsgListener)
  | addCloseListener (l : CloseListener)
  | close

/-- One operation step; a thrown `_onClientMessage` is caught by the
socket layer and leaves the connection state unchanged. -/
def BidirectionalConnection.step (b : BidirectionalConnection) :
    DuplexOp → BidirectionalConnection
  | .sendMessage m => b.sendMessage m
  | .clientMessage m =>
    match b._onClientMessage m with
    | .ok b1 => b1
    | .error _ => b
  | .addListener l => b.addOnMessageListener l
  | .addCloseListener l => b.addOnCloseMessageListener l
  | .close => b.close

def BidirectionalConnection.run (b : BidirectionalConnection)
    (ops : List DuplexOp) : BidirectionalConnection :=
  ops.foldl BidirectionalConnection.step b

/-! ### Supporting lemmas -/

theorem ConnectionWritter.run_append (c : ConnectionWritter)
    (l₁ l₂ : List WriterOp) :
    c.run (l₁ ++ l₂) = (c.run l₁).run l₂ := by
  unfold ConnectionWritter.run
  exact List.foldl_append _ _ _ _

/-- Once the stream controller is closed, no operation appends a frame or
reopens the stream. -/
theorem writer_frames_frozen_step (c : ConnectionWritter) (op : WriterOp)
    (h : c.connection.streamClosed = true) :
    (c.step op).connection.frames = c.connection.frames
      ∧ (c.step op).connection.streamClosed = true := by
  cases op with
  | write m =>
    by_cases hc : c.closed <;>
      simp [ConnectionWritter.step, ConnectionWritter.write, Connection.enqueue, hc, h]
  | close =>
    by_cases hc : c.closed
    · simp [ConnectionWritter.step, ConnectionWritter.close, hc, h]
    · simp [ConnectionWritter.step, ConnectionWritter.close, Connection.enqueue,
        Connection.closeController, hc, h]
  | keepaliveTick =>
    by_cases ht : c.timerActive <;>
      simp [ConnectionWritter.step, ConnectionWritter.keepaliveTick,
        Connection.enqueue, ht, h]

theorem writer_frames_frozen (ops : List WriterOp) :
    ∀ (c : ConnectionWritter), c.connection.streamClosed = true →
      (c.run ops).connection.frames = c.connection.frames := by
  induction ops with
  | nil => intro c _; rfl
  | cons op rest ih =>
    intro c h
    have hstep := writer_frames_frozen_step c op h
    show ((c.step op).run rest).connection.frames = c.connection.frames
    rw [ih _ hstep.2, hstep.1]

/-- The `closed` flag of a `ConnectionWritter` never resets. -/
theorem writer_closed_mono_step (c : ConnectionWritter) (op : WriterOp)
    (h : c.closed = true) : (c.step op).closed = true := by
  cases op with
  | write m =>
    cases he : (Connection.enqueue c.connection
        ("event: content\ndata: " ++ jsonStringify m ++ "\n\n")) <;>
      simp [ConnectionWritter.step, ConnectionWritter.write, h, he]
  | close => simp [ConnectionWritter.step, ConnectionWritter.close, h]
  | keepaliveTick =>
    by_cases ht : c.timerActive
    · cases he : (Connection.enqueue c.connection ": keepalive\n\n") <;>
        simp [ConnectionWritter.step, ConnectionWritter.keepaliveTick, ht, he, h]
    · simp [ConnectionWritter.step, ConnectionWritter.keepaliveTick, ht, h]

theorem writer_closed_mono (ops : List WriterOp) :
    ∀ (c : ConnectionWritter), c.closed = true → (c.run ops).closed = true := by
  induction ops with
  | nil => intro c h; exact h
  | cons op rest ih =>
    intro c h
    exact ih _ (writer_closed_mono_step c op h)

/-- The reachability invariant of a `ConnectionWritter`: the `closed`
flag mirrors the stream-controller state, and the keepalive interval is
scheduled exactly while the connection is open. -/
def WriterInv (c : ConnectionWritter) : Prop :=
  c.connection.streamClosed = c.closed ∧ c.timerActive = !c.closed

theorem writerInv_new (pd : ProcDef) :
    WriterInv (ConnectionWritter.new Connection.new pd) :=
  ⟨rfl, rfl⟩

theorem writerInv_step (c : ConnectionWritter) (op : WriterOp)
    (h : WriterInv c) : WriterInv (c.step op) := by
  obtain ⟨h1, h2⟩ := h
  cases op with
  | write m =>
    by_cases hc : c.closed <;>
      simp [ConnectionWritter.step, ConnectionWritter.write, Connection.enqueue,
        WriterInv, hc, h1, h2]
  | close =>
    by_cases hc : c.closed
    · simp [ConnectionWritter.step, ConnectionWritter.close, WriterInv, hc, h1, h2]
    · simp [hc] at h1
      simp [ConnectionWritter.step, ConnectionWritter.close, Connection.enqueue,
        Connection.closeController, WriterInv, hc, h1]
  | keepaliveTick =>
    by_cases ht : c.timerActive <;>
      by_cases hc : c.closed <;>
        simp [ConnectionWritter.step, ConnectionWritter.keepaliveTick,
          Connection.enqueue, WriterInv, ht, hc, h1, h2] <;>
        simp [hc] at h1 h2 <;> simp_all

theorem writerInv_run (ops : List WriterOp) :
    ∀ (c : ConnectionWritter), WriterInv c → WriterInv (c.run ops) := by
  induction ops with
  | nil => intro c h; exact h
  | cons op rest ih =>
    intro c h
    exact ih _ (writerInv_step c op h)

/-- `write` on a connection whose `closed` flag is set (hence, by the
invariant, whose stream controller is closed) logs twice — the
closed-write error, then the caught enqueue throw — and appends no frame,
without throwing to the caller (`write` is total). -/
theorem write_closed_noop (c : ConnectionWritter) (m : JVal)
    (h1 : c.closed = true) (h2 : c.connection.streamClosed = true) :
    (c.write m).connection.frames = c.connection.frames
      ∧ (c.write m).log = c.log ++
          ["Attepted to write on closed function.", "Error at write method."]
      ∧ (c.write m).closed = true := by
  simp [ConnectionWritter.write, Connection.enqueue, h1, h2]

/-- The close-listener fold touches only the invocation trace and the
log. -/
theorem closeFold_spec (il : List (Nat × CloseListener)) :
    ∀ (acc : BidirectionalConnection),
      (il.foldl closeListenerStep acc).closeInvocations
          = acc.closeInvocations ++ il.map Prod.fst
        ∧ (il.foldl closeListenerStep acc).connection = acc.connection
        ∧ (il.foldl closeListenerStep acc).closed = acc.closed
        ∧ (il.foldl closeListenerStep acc).closeListeners = acc.closeListeners
        ∧ (il.foldl closeListenerStep acc).msgInvocations = acc.msgInvocations := by
  induction il with
  | nil => intro acc; simp
  | cons p rest ih =>
    intro acc
    have hstep :
        (closeListenerStep acc p).closeInvocations
            = acc.closeInvocations ++ [p.1]
          ∧ (closeListenerStep acc p).connection = acc.connection
          ∧ (closeListenerStep acc p).closed = acc.closed
          ∧ (closeListenerStep acc p).closeListeners = acc.closeListeners
          ∧ (closeListenerStep acc p).msgInvocations = acc.msgInvocations := by
      cases hcb : p.2.callback <;> simp [closeListenerStep, hcb]
    obtain ⟨s1, s2, s3, s4, s5⟩ := hstep
    obtain ⟨r1, r2, r3, r4, r5⟩ := ih (closeListenerStep acc p)
    refine ⟨?_, by rw [List.foldl_cons, r2, s2], by rw [List.foldl_cons, r3, s3],
      by rw [List.foldl_cons, r4, s4], by rw [List.foldl_cons, r5, s5]⟩
    rw [List.foldl_cons, r1, s1]
    simp

/-- The message-listener dispatch fold appends one invocation per
listener in order and touches only the trace and the log. -/
theorem dispatchFold_spec (ls : List MsgListener) (typed : JVal) :
    ∀ (acc : BidirectionalConnection),
      (ls.foldl (fun acc l => dispatchToListener acc l typed) acc).msgInvocations
          = acc.msgInvocations ++ ls.map (fun l => (l.name, typed))
        ∧ (ls.foldl (fun acc l => dispatchToListener acc l typed) acc).connection
          = acc.connection
        ∧ (ls.foldl (fun acc l => dispatchToListener acc l typed) acc).closed
          = acc.closed
        ∧ (ls.foldl (fun acc l => dispatchToListener acc l typed) acc).msgListeners
          = acc.msgListeners := by
  induction ls with
  | nil => intro acc; simp
  | cons l rest ih =>
    intro acc
    have hstep :
        (dispatchToListener acc l typed).msgInvocations
            = acc.msgInvocations ++ [(l.name, typed)]
          ∧ (dispatchToListener acc l typed).connection = acc.connection
          ∧ (dispatchToListener acc l typed).closed = acc.closed
          ∧ (dispatchToListener acc l typed).msgListeners = acc.msgListeners := by
      cases hcb : l.callback typed <;> simp [dispatchToListener, hcb]
    obtain ⟨s1, s2, s3, s4⟩ := hstep
    obtain ⟨r1, r2, r3, r4⟩ := ih (dispatchToListener acc l typed)
    refine ⟨?_, by rw [List.foldl_cons, r2, s2], by rw [List.foldl_cons, r3, s3],
      by rw [List.foldl_cons, r4, s4]⟩
    rw [List.foldl_cons, r1, s1]
    simp

/-- The `closed` flag of a duplex connection never resets, and a closed
socket never reopens. -/
theorem duplex_closed_mono_step (b : BidirectionalConnection) (op : DuplexOp)
    (h : b.closed = true) : (b.step op).closed = true := by
  cases op with
  | sendMessage m =>
    cases ho : b.procDefinition.output m <;>
      simp [BidirectionalConnection.step, BidirectionalConnection.sendMessage,
        WebSock.send, ho, h]
  | clientMessage m =>
    cases hi : b.procDefinition.input m with
    | error e =>
      simp [BidirectionalConnection.step, BidirectionalConnection._onClientMessage,
        hi, h]
    | ok typed =>
      simp only [BidirectionalConnection.step,
        BidirectionalConnection._onClientMessage, hi]
      rw [(dispatchFold_spec b.msgListeners typed b).2.2.1]
      exact h
  | addListener l =>
    simp [BidirectionalConnection.step, BidirectionalConnection.addOnMessageListener, h]
  | addCloseListener l =>
    simp [BidirectionalConnection.step,
      BidirectionalConnection.addOnCloseMessageListener, h]
  | close => simp [BidirectionalConnection.step, BidirectionalConnection.close, h]

theorem duplex_closed_mono (ops : List DuplexOp) :
    ∀ (b : BidirectionalConnection), b.closed = true →
      (b.run ops).closed = true := by
  induction ops with
  | nil => intro b h; exact h
  | cons op rest ih =>
    intro b h
    exact ih _ (duplex_closed_mono_step b op h)

/-- The reachability invariant of a duplex connection: once the `closed`
flag is set the underlying socket is closed. -/
def DuplexInv (b : BidirectionalConnection) : Prop :=
  b.closed = true → b.connection.isOpen = false

theorem duplexInv_step (b : BidirectionalConnection) (op : DuplexOp)
    (h : DuplexInv b) : DuplexInv (b.step op) := by
  cases op with
  | sendMessage m =>
    intro hc
    cases ho : b.procDefinition.output m with
    | error e =>
      simp [BidirectionalConnection.step, BidirectionalConnection.sendMessage,
        ho] at hc ⊢
      exact h hc
    | ok d =>
      simp only [BidirectionalConnection.step, BidirectionalConnection.sendMessage,
        ho] at hc ⊢
      have hb := h hc
      simp [WebSock.send, hb]
  | clientMessage m =>
    intro hc
    cases hi : b.procDefinition.input m with
    | error e =>
      simp [BidirectionalConnection.step, BidirectionalConnection._onClientMessage,
        hi] at hc ⊢
      exact h hc
    | ok typed =>
      simp only [BidirectionalConnection.step,
        BidirectionalConnection._onClientMessage, hi] at hc ⊢
      rw [(dispatchFold_spec b.msgListeners typed b).2.2.1] at hc
      rw [(dispatchFold_spec b.msgListeners typed b).2.1]
      exact h hc
  | addListener l =>
    intro hc
    simp [BidirectionalConnection.step,
      BidirectionalConnection.addOnMessageListener] at hc ⊢
    exact h hc
  | addCloseListener l =>
    intro hc
    simp [BidirectionalConnection.step,
      BidirectionalConnection.addOnCloseMessageListener] at hc ⊢
    exact h hc
  | close =>
    intro _
    by_cases hb : b.closed
    · simp [BidirectionalConnection.step, BidirectionalConnection.close, hb]
      exact h hb
    · simp [BidirectionalConnection.step, BidirectionalConnection.close, hb]

theorem duplexInv_run (ops : List DuplexOp) :
    ∀ (b : BidirectionalConnection), DuplexInv b → DuplexInv (b.run ops) := by
  induction ops with
  | nil => intro b h; exact h
  | cons op rest ih =>
    intro b h
    exact ih _ (duplexInv_step b op h)

/-- `sendMessage` on a connection whose socket is closed passes nothing
to the wire: the transmitted frames are unchanged (and the call is total,
it never throws). -/
theorem send_closed_silent (b : BidirectionalConnection) (m : JVal)
    (h : b.connection.isOpen = false) :
    (b.sendMessage m).connection.sentFrames = b.connection.sentFrames := by
  cases ho : b.procDefinition.output m <;>
    simp [BidirectionalConnection.sendMessage, WebSock.send, ho, h]

/-! ### Concrete fixtures used by witnesses and counterexamples -/

/-- A sample zod schema accepting exactly booleans. -/
def boolSchema : SchemaFn := fun v =>
  match v with
  | .boolVal b => .ok (.boolVal b)
  | _ => .error "Expected boolean"

def sampleQueryProc : ProcDef :=
  { name := "GetUserById", method := .QUERY, input := boolSchema,
    output := boolSchema }

def sampleSubProc : ProcDef :=
  { name := "StreamName", method := .SUBSCRIPTION, input := boolSchema,
    output := boolSchema }

def sampleBidiProc : ProcDef :=
  { name := "Messages", method := .BIDIRECTIONAL, input := boolSchema,
    output := boolSchema }

/-- A sample implementation function (succeeds under either call). -/
def hOk : HVal := { asMiddleware := .ok (), asHandler := fun v => .ok v }

def sampleSocket : WebSock := { sendCalls := [], sentFrames := [], isOpen := true }

def sampleWriter : ConnectionWritter :=
  ConnectionWritter.new Connection.new sampleSubProc

def closeOk : CloseListener := { callback := .ok () }

def closeBad : CloseListener := { callback := .error "close listener failure" }

/-- A duplex connection with two close listeners (one failing, to
exercise error isolation). -/
def sampleDuplexWithCloseListeners : BidirectionalConnection :=
  ((BidirectionalConnection.new sampleBidiProc sampleSocket).addOnCloseMessageListener
      closeOk).addOnCloseMessageListener closeBad

def msgLFirst : MsgListener := { name := "first", callback := fun _ => .ok () }

def msgLSecond : MsgListener :=
  { name := "second", callback := fun _ => .error "listener failure" }

/-- A duplex connection with two message listeners (the second failing,
to exercise error isolation). -/
def fanoutConn : BidirectionalConnection :=
  ((BidirectionalConnection.new sampleBidiProc sampleSocket).addOnMessageListener
      msgLFirst).addOnMessageListener msgLSecond

def freshDuplex : BidirectionalConnection :=
  BidirectionalConnection.new sampleBidiProc sampleSocket

/-- A duplex connection after its (spec-modelled) close. -/
def closedDuplex : BidirectionalConnection :=
  (BidirectionalConnection.new sampleBidiProc sampleSocket).close

/-! ### Claims -/

/-- C3: a fresh `ConnectionWritter` subjected to `write(A)`, `write(B)`,
`close()` emits exactly the connected marker, then content(A), then
content(B), then the close frame, in that order; and whatever operations
follow the close, no further frame is emitted. -/
theorem push_framing_order (pd : ProcDef) (A B : JVal) (ops : List WriterOp) :
    ((ConnectionWritter.new Connection.new pd).run
        [.write A, .write B, .close]).connection.frames
      = [": Connected\n\n",
         "event: content\ndata: " ++ jsonStringify A ++ "\n\n",
         "event: content\ndata: " ++ jsonStringify B ++ "\n\n",
         "event: close\ndata: close\n\n"]
  ∧ ((ConnectionWritter.new Connection.new pd).run
        ([.write A, .write B, .close] ++ ops)).connection.frames
      = ((ConnectionWritter.new Connection.new pd).run
          [.write A, .write B, .close]).connection.frames := by
  constructor
  · rfl
  · rw [ConnectionWritter.run_append]
    exact writer_frames_frozen ops _ rfl

/-- C6: a second `close()` is a no-op on both connection types: on a
stream writer (in a state satisfying the reachability invariant) the
second call only appends the already-closed log line; on a duplex
connection the first close triggers every registered close listener
exactly once, by registration index and in order, regardless of listener
failures, then closes the underlying socket — and closing again is the
identity. -/
theorem close_idempotent (c : ConnectionWritter) (b : BidirectionalConnection)
    (hc : c.connection.streamClosed = c.closed) (hb : b.closed = false) :
    ((c.close).1.close).1
        = { (c.close).1 with
            log := (c.close).1.log ++ ["The connection has been already closed"] }
  ∧ (b.close).closeInvocations
        = b.closeInvocations ++ List.range b.closeListeners.length
  ∧ (b.close).connection.isOpen = false
  ∧ (b.close).closed = true
  ∧ (b.close).close = b.close := by
  have hfirst : (c.close).1.closed = true := by
    by_cases h : c.closed
    · simp [ConnectionWritter.close, h]
    · have hcl : c.closed = false := by simpa using h
      rw [hcl] at hc
      simp [ConnectionWritter.close, h, Connection.enqueue,
        Connection.closeController, hc]
  have hclose : b.close =
      { (b.closeListeners.enum.foldl closeListenerStep b) with
        connection :=
          { (b.closeListeners.enum.foldl closeListenerStep b).connection with
            isOpen := false },
        closed := true } := by
    simp [BidirectionalConnection.close, hb]
  have hspec := closeFold_spec b.closeListeners.enum b
  refine ⟨?_, ?_, ?_, ?_, ?_⟩
  · generalize (c.close).1 = c1 at hfirst ⊢
    simp [ConnectionWritter.close, hfirst]
  · rw [hclose]
    show (b.closeListeners.enum.foldl closeListenerStep b).closeInvocations = _
    rw [hspec.1]
    simp
  · rw [hclose]
  · rw [hclose]
  · have h4 : (b.close).closed = true := by rw [hclose]
    generalize hbc : b.close = bc at h4 ⊢
    show bc.close = bc
    simp [BidirectionalConnection.close, h4]

/-- C6 witness: the two concrete connections satisfy the hypotheses and
the conclusions of `close_idempotent`. -/
theorem close_idempotent_witness :
    ((sampleWriter.close).1.close).1
        = { (sampleWriter.close).1 with
            log := (sampleWriter.close).1.log ++
              ["The connection has been already closed"] }
  ∧ (sampleDuplexWithCloseListeners.close).closeInvocations
        = sampleDuplexWithCloseListeners.closeInvocations ++
            List.range sampleDuplexWithCloseListeners.closeListeners.length
  ∧ (sampleDuplexWithCloseListeners.close).connection.isOpen = false
  ∧ (sampleDuplexWithCloseListeners.close).closed = true
  ∧ (sampleDuplexWithCloseListeners.close).close
      = sampleDuplexWithCloseListeners.close :=
  close_idempotent sampleWriter sampleDuplexWithCloseListeners rfl rfl

/-- C4: an inbound duplex message passing input validation is dispatched
to every registered listener, exactly once each and in registration
order; a message failing validation throws the structured error and
nothing is dispatched. -/
theorem duplex_fanout_order (b : BidirectionalConnection) (msg : JVal) :
    (∀ typed, b.procDefinition.input msg = .ok typed →
      ∃ b1, b._onClientMessage msg = .ok b1
        ∧ b1.msgInvocations
            = b.msgInvocations ++ b.msgListeners.map (fun l => (l.name, typed)))
  ∧ (∀ e, b.procDefinition.input msg = .error e →
      b._onClientMessage msg
        = .error ("The procedure " ++ b.procDefinition.name ++
            " received an invalid payload.\nError: " ++ e)) := by
  constructor
  · intro typed hok
    refine ⟨b.msgListeners.foldl (fun acc l => dispatchToListener acc l typed) b,
      ?_, ?_⟩
    · simp [BidirectionalConnection._onClientMessage, hok]
    · exact (dispatchFold_spec b.msgListeners typed b).1
  · intro e herr
    simp [BidirectionalConnection._onClientMessage, herr]

/-- C4 witness: on a connection with two listeners a valid message is
dispatched to both in order; an invalid one raises the structured
error. -/
theorem duplex_fanout_order_witness :
    (∃ b1, fanoutConn._onClientMessage (.boolVal true) = .ok b1
      ∧ b1.msgInvocations
          = fanoutConn.msgInvocations ++
              fanoutConn.msgListeners.map (fun l => (l.name, JVal.boolVal true)))
  ∧ fanoutConn._onClientMessage .null
      = .error ("The procedure " ++ fanoutConn.procDefinition.name ++
          " received an invalid payload.\nError: " ++ "Expected boolean") :=
  ⟨(duplex_fanout_order fanoutConn (.boolVal true)).1 (.boolVal true) rfl,
   (duplex_fanout_order fanoutConn .null).2 "Expected boolean" rfl⟩

/-- C5: `sendMessage` validates against the output schema first; on
failure it logs the validation error and passes nothing to the socket
(the connection state, including its open/closed status, is untouched);
on success exactly one serialized frame is passed to the socket's
`send`. -/
theorem duplex_outbound_guard (b : BidirectionalConnection) (msg : JVal) :
    (∀ e, b.procDefinition.output msg = .error e →
        (b.sendMessage msg).connection = b.connection
      ∧ (b.sendMessage msg).log = b.log ++
          ["[ZYNAPSE] The message to be sent to the connection does not conform to the schema.\nMessage: "
            ++ jsonStringify msg ++ "\nError: " ++ e]
      ∧ (b.sendMessage msg).closed = b.closed)
  ∧ (∀ d, b.procDefinition.output msg = .ok d →
        (b.sendMessage msg).connection.sendCalls
            = b.connection.sendCalls ++ [jsonStringify d]
      ∧ (b.sendMessage msg).log = b.log) := by
  constructor
  · intro e he
    refine ⟨?_, ?_, ?_⟩ <;> simp [BidirectionalConnection.sendMessage, he]
  · intro d hd
    by_cases ho : b.connection.isOpen <;>
      constructor <;>
        simp [BidirectionalConnection.sendMessage, WebSock.send, hd, ho]

/-- C5 witness: a payload violating the output schema is logged and never
reaches the socket; a valid payload is passed to `send` exactly once. -/
theorem duplex_outbound_guard_witness :
    ((freshDuplex.sendMessage .null).connection = freshDuplex.connection
      ∧ (freshDuplex.sendMessage .null).log = freshDuplex.log ++
          ["[ZYNAPSE] The message to be sent to the connection does not conform to the schema.\nMessage: "
            ++ jsonStringify .null ++ "\nError: " ++ "Expected boolean"]
      ∧ (freshDuplex.sendMessage .null).closed = freshDuplex.closed)
  ∧ ((freshDuplex.sendMessage (.boolVal true)).connection.sendCalls
        = freshDuplex.connection.sendCalls ++ [jsonStringify (.boolVal true)]
      ∧ (freshDuplex.sendMessage (.boolVal true)).log = freshDuplex.log) :=
  ⟨(duplex_outbound_guard freshDuplex .null).1 "Expected boolean" rfl,
   (duplex_outbound_guard freshDuplex (.boolVal true)).2 (.boolVal true) rfl⟩

/-- C7 (amended): on any reachable connection state whose `closed` flag
is set, the flag never resets under any further operations; a stream
write appends no frame, logs the closed-write error and the caught
enqueue throw, and does not throw to its caller; a duplex `sendMessage`
transmits no frame and does not throw — but, diverging from the claim,
a schema-valid message is handed to the closed socket silently (dropped
by the socket) rather than logged. -/
theorem closed_monotone_and_writes_noop (pd pdB : ProcDef) (ws : WebSock)
    (ops0 ops : List WriterOp) (m : JVal)
    (bops0 bops : List DuplexOp) (mB : JVal) :
    (((ConnectionWritter.new Connection.new pd).run ops0).closed = true →
        (((ConnectionWritter.new Connection.new pd).run ops0).run ops).closed = true
      ∧ (((ConnectionWritter.new Connection.new pd).run ops0).write m).connection.frames
          = ((ConnectionWritter.new Connection.new pd).run ops0).connection.frames
      ∧ (((ConnectionWritter.new Connection.new pd).run ops0).write m).log
          = ((ConnectionWritter.new Connection.new pd).run ops0).log ++
              ["Attepted to write on closed function.", "Error at write method."])
  ∧ (((BidirectionalConnection.new pdB ws).run bops0).closed = true →
        (((BidirectionalConnection.new pdB ws).run bops0).run bops).closed = true
      ∧ (((BidirectionalConnection.new pdB ws).run bops0).sendMessage mB).connection.sentFrames
          = ((BidirectionalConnection.new pdB ws).run bops0).connection.sentFrames) := by
  constructor
  · intro hc
    have hinv := writerInv_run ops0 _ (writerInv_new pd)
    have h2 : ((ConnectionWritter.new Connection.new pd).run ops0).connection.streamClosed
        = true := by rw [hinv.1, hc]
    exact ⟨writer_closed_mono ops _ hc, (write_closed_noop _ m hc h2).1,
      (write_closed_noop _ m hc h2).2.1⟩
  · intro hc
    have hnew : DuplexInv (BidirectionalConnection.new pdB ws) := by
      intro h
      exact absurd h (by simp [BidirectionalConnection.new])
    have hinv : DuplexInv ((BidirectionalConnection.new pdB ws).run bops0) :=
      duplexInv_run bops0 _ hnew
    exact ⟨duplex_closed_mono bops _ hc, send_closed_silent _ mB (hinv hc)⟩

/-- C7 witness: after an explicit close, the two connections exhibit the
amended behaviour. -/
theorem closed_monotone_and_writes_noop_witness :
    ((((ConnectionWritter.new Connection.new sampleSubProc).run [.close]).run
        [.write (.boolVal true)]).closed = true
      ∧ (((ConnectionWritter.new Connection.new sampleSubProc).run [.close]).write
          (.boolVal true)).connection.frames
        = ((ConnectionWritter.new Connection.new sampleSubProc).run [.close]).connection.frames
      ∧ (((ConnectionWritter.new Connection.new sampleSubProc).run [.close]).write
          (.boolVal true)).log
        = ((ConnectionWritter.new Connection.new sampleSubProc).run [.close]).log ++
            ["Attepted to write on closed function.", "Error at write method."])
  ∧ ((((BidirectionalConnection.new sampleBidiProc sampleSocket).run [.close]).run
        [.sendMessage (.boolVal true)]).closed = true
      ∧ (((BidirectionalConnection.new sampleBidiProc sampleSocket).run [.close]).sendMessage
          (.boolVal true)).connection.sentFrames
        = ((BidirectionalConnection.new sampleBidiProc sampleSocket).run
            [.close]).connection.sentFrames) :=
  ⟨(closed_monotone_and_writes_noop sampleSubProc sampleBidiProc sampleSocket
      [.close] [.write (.boolVal true)] (.boolVal true) [.close]
      [.sendMessage (.boolVal true)] (.boolVal true)).1 rfl,
   (closed_monotone_and_writes_noop sampleSubProc sampleBidiProc sampleSocket
      [.close] [.write (.boolVal true)] (.boolVal true) [.close]
      [.sendMessage (.boolVal true)] (.boolVal true)).2 rfl⟩

/-- C7 counterexample: a duplex connection whose `closed` flag is set
(via the spec-modelled close) accepts a schema-valid `sendMessage`
without logging anything — the write/send after close is a *silent*
no-op at the socket, not a logged one as the claim states. -/
theorem closed_send_not_logged_cex :
    closedDuplex.closed = true
  ∧ (closedDuplex.sendMessage (.boolVal true)).log = closedDuplex.log
  ∧ (closedDuplex.sendMessage (.boolVal true)).connection.sentFrames
      = closedDuplex.connection.sentFrames :=
  ⟨rfl, rfl, rfl⟩

/-! Builder fixtures -/

def twoProcService : ServiceDef :=
  { name := "Users",
    procedures := [("GetUserById", sampleQueryProc), ("StreamName", sampleSubProc)],
    middlewareDescription := none }

def builderMissing : ServiceImplementationBuilder :=
  ({ serviceSchema := twoProcService } :
      ServiceImplementationBuilder).registerProcedureImplementation
    "GetUserById" hOk

def builderComplete : ServiceImplementationBuilder :=
  builderMissing.registerProcedureImplementation "StreamName" hOk

/-- C1: `build()` fails, with a message enumerating exactly the missing
procedure names, whenever some schema procedure has no registered
handler; and succeeds whenever every schema procedure has a handler and
any required middleware is set. -/
theorem build_completeness (b : ServiceImplementationBuilder) :
    ((∃ p ∈ b.requiredProcedureNames, jsGet b.handlers p = none) →
        b.build = .error b.incompleteMessage ∧ b.missingProcedures ≠ [])
  ∧ ((∀ p ∈ b.requiredProcedureNames, (jsGet b.handlers p).isSome) →
        (b.serviceSchema.middlewareDescription.isSome → b.middleware.isSome) →
        b.build = .ok b.builtObject) := by
  constructor
  · rintro ⟨p, hp, hnone⟩
    have h1 : jsIncludes b.implementedProcedureNames p = false := by
      cases hji : jsIncludes b.implementedProcedureNames p
      · rfl
      · exfalso
        have hmem := (jsIncludes_iff _ _).mp hji
        have h2 := (jsGet_isSome_iff_mem_keys b.handlers p).mpr hmem
        rw [hnone] at h2
        simp at h2
    have hmem2 : p ∈ b.missingProcedures := by
      rw [ServiceImplementationBuilder.missingProcedures, List.mem_filter]
      exact ⟨hp, by rw [h1]; rfl⟩
    have hne : b.missingProcedures ≠ [] := List.ne_nil_of_mem hmem2
    refine ⟨?_, hne⟩
    rw [ServiceImplementationBuilder.build, if_pos hne]
  · intro hall hmw
    have hmiss : b.missingProcedures = [] := by
      rw [ServiceImplementationBuilder.missingProcedures, List.filter_eq_nil_iff]
      intro p hp
      have hmem := (jsGet_isSome_iff_mem_keys b.handlers p).mp (hall p hp)
      have hji : jsIncludes b.implementedProcedureNames p = true :=
        (jsIncludes_iff _ _).mpr hmem
      simp [hji]
    have hcond :
        (b.serviceSchema.middlewareDescription.isSome && b.middleware.isNone)
          = false := by
      cases hd : b.serviceSchema.middlewareDescription with
      | none => simp
      | some d =>
        have hm := hmw (by rw [hd]; rfl)
        cases hmm : b.middleware with
        | none => rw [hmm] at hm; simp at hm
        | some mw => simp
    have hfind : b.requiredProcedureNames.find?
        (fun pName => (jsGet b.builtObject pName).isNone) = none := by
      rw [List.find?_eq_none]
      intro p hp
      have h1 := hall p hp
      have h2 : (jsGet b.builtObject p).isSome = true := by
        rw [ServiceImplementationBuilder.builtObject, objAssign_jsGet_isSome]
        rw [Bool.or_eq_true]
        exact Or.inr h1
      intro hcontra
      rw [Option.isNone_iff_eq_none] at hcontra
      rw [hcontra] at h2
      simp at h2
    rw [ServiceImplementationBuilder.build, if_neg (by simp [hmiss]),
      if_neg (by simp [hcond]), hfind]

/-- C1 witness: a builder missing `StreamName` fails with the enumerating
message; registering the remaining handler makes `build()` succeed. -/
theorem build_completeness_witness :
    (builderMissing.build = .error builderMissing.incompleteMessage
      ∧ builderMissing.missingProcedures ≠ [])
  ∧ builderComplete.build = .ok builderComplete.builtObject :=
  ⟨(build_completeness builderMissing).1 ⟨"StreamName", by decide, rfl⟩,
   (build_completeness builderComplete).2 (by decide) (by decide)⟩

/-! C10 fixtures -/

def middlewareProc : ProcDef :=
  { name := "middleware", method := .QUERY, input := boolSchema,
    output := boolSchema }

def middlewareNamedService : ServiceDef :=
  { name := "Weird", procedures := [("middleware", middlewareProc)],
    middlewareDescription := none }

/-- A sample middleware function, distinct in behaviour from `hOk`. -/
def hMw : HVal := { asMiddleware := .error "middleware ran", asHandler := fun v => .ok v }

def collisionBuilder : ServiceImplementationBuilder :=
  (({ serviceSchema := middlewareNamedService } :
      ServiceImplementationBuilder).registerProcedureImplementation
    "middleware" hOk).setMiddleware hMw

/-- C10: the built object stores the middleware under the `"middleware"`
key and the dispatcher reads the middleware from exactly that key
(`dispatcherMiddleware`); since the handlers are spread last, a procedure
handler registered under the name `"middleware"` overwrites the
middleware in the built object and is what the dispatcher invokes as the
middleware. -/
theorem middleware_key_collision (b : ServiceImplementationBuilder)
    (impl : List (String × HVal))
    (hnodup : (b.handlers.map Prod.fst).Nodup)
    (hb : b.build = .ok impl) :
    (∀ mw, b.middleware = some mw → jsGet b.handlers "middleware" = none →
        jsGet impl "middleware" = some mw ∧ dispatcherMiddleware impl = some mw)
  ∧ (∀ h, jsGet b.handlers "middleware" = some h →
        jsGet impl "middleware" = some h ∧ dispatcherMiddleware impl = some h) := by
  have himpl : impl = b.builtObject := by
    rw [ServiceImplementationBuilder.build] at hb
    split at hb
    · exact absurd hb (by simp)
    · split at hb
      · exact absurd hb (by simp)
      · split at hb
        · exact absurd hb (by simp)
        · injection hb with h2
          exact h2.symm
  subst himpl
  constructor
  · intro mw hmw hnone
    have h1 : jsGet b.builtObject "middleware" = some mw := by
      rw [ServiceImplementationBuilder.builtObject,
        objAssign_jsGet_of_none b.handlers _ _ hnone,
        ServiceImplementationBuilder.middlewareEntry, hmw]
      simp [jsGet]
    exact ⟨h1, h1⟩
  · intro h hreg
    have h1 : jsGet b.builtObject "middleware" = some h := by
      rw [ServiceImplementationBuilder.builtObject]
      exact objAssign_jsGet_of_nodup b.handlers _ _ _ hnodup hreg
    exact ⟨h1, h1⟩

/-- C10 witness: with a procedure named `middleware` implemented by `hOk`
and a distinct middleware `hMw` set, the built object and the
dispatcher's middleware read both yield the procedure handler `hOk`. -/
theorem middleware_key_collision_witness :
    jsGet collisionBuilder.builtObject "middleware" = some hOk
  ∧ dispatcherMiddleware collisionBuilder.builtObject = some hOk :=
  (middleware_key_collision collisionBuilder collisionBuilder.builtObject
    (by decide) rfl).2 hOk rfl

/-! Dispatcher fixtures -/

def sampleService : ServiceDef :=
  { name := "Users", procedures := [("GetUserById", sampleQueryProc)],
    middlewareDescription := none }

def sampleImplObj : List (String × HVal) := [("GetUserById", hOk)]

def sampleServer : Server :=
  { services := [("Users", sampleService)],
    implementation := [("Users", sampleImplObj)] }

/-- A call under `/_api` whose `data` fails the input schema. -/
def badInputReq : Req :=
  { pathname := "/_api", payloadParam := none,
    bodyJson := .ok (.obj [("procedure", .str "GetUserById"),
      ("service", .str "Users"), ("data", .str "oops")]) }

/-- A call under `/_api` whose `payload` parameter is not parseable. -/
def unparsableReq : Req :=
  { pathname := "/_api", payloadParam := some (.error ()), bodyJson := .ok .null }

/-- A call under `/_api` whose envelope lacks the `data` field. -/
def missingDataReq : Req :=
  { pathname := "/_api", payloadParam := none,
    bodyJson := .ok (.obj [("procedure", .str "GetUserById"),
      ("service", .str "Users")]) }

/-- A request outside the API path prefix. -/
def fooReq : Req :=
  { pathname := "/foo", payloadParam := none, bodyJson := .ok .null }

/-- C2: when the envelope resolves to an existing service and procedure
but the data fails the procedure's input schema, the dispatcher answers
400 carrying the validation message, and the handler is never invoked. -/
theorem invalid_input_yields_400 (sv : Server) (req : Req) (body : JVal)
    (env : Envelope) (sd : ServiceDef) (ih : List (String × HVal)) (ph : HVal)
    (pd : ProcDef) (e : String)
    (hseg : pathSegOne req.pathname = some "_api")
    (hbody : req.rawBody = .ok body)
    (henv : parseEnvelope body = .ok env)
    (hsd : jsGet sv.services env.service = some sd)
    (hih : jsGet sv.implementation env.service = some ih)
    (hph : jsGet ih env.procedure = some ph)
    (hpd : sd.getProcedure env.procedure = some pd)
    (hval : pd.input env.data = .error e) :
    sv.handleRequest req =
      { status := 400,
        body := .text ("The input has failed the validation: " ++ e),
        handlerInvoked := false } := by
  simp [Server.handleRequest, hseg, hbody, henv, hsd, hih, hph, hpd, hval]

/-- C2 witness: a concrete call with a non-boolean `data` against the
boolean-input procedure yields the 400 with the validation message, with
`handlerInvoked = false`. -/
theorem invalid_input_yields_400_witness :
    sampleServer.handleRequest badInputReq =
      { status := 400,
        body := .text ("The input has failed the validation: " ++ "Expected boolean"),
        handlerInvoked := false } :=
  invalid_input_yields_400 sampleServer badInputReq
    (.obj [("procedure", .str "GetUserById"), ("service", .str "Users"),
      ("data", .str "oops")])
    ⟨"Users", "GetUserById", .str "oops"⟩
    sampleService sampleImplObj hOk sampleQueryProc "Expected boolean"
    rfl rfl rfl rfl rfl rfl rfl rfl

/-- An envelope accepted by `RequestBodySchema` has all three fields
valid. -/
theorem parseEnvelope_ok_fields {fields : List (String × JVal)} {env : Envelope}
    (h : parseEnvelope (.obj fields) = .ok env) :
    parseProcedureField fields = .ok env.procedure
  ∧ parseServiceField fields = .ok env.service
  ∧ parseDataField fields = .ok env.data := by
  cases env with
  | mk s p d =>
    rcases hp : parseProcedureField fields with e1 | p1 <;>
      rcases hs : parseServiceField fields with e2 | s1 <;>
        rcases hd : parseDataField fields with e3 | d1 <;>
          simp [parseEnvelope, hp, hs, hd] at h
    obtain ⟨h1, h2, h3⟩ := h
    subst h1
    subst h2
    subst h3
    refine ⟨?_, ?_, ?_⟩ <;> simp [hp, hs, hd]

/-- C8 (amended): under the API prefix, an envelope that cannot be
parsed at all (body or `payload` parameter) yields **500** — not 400 as
the claim states — while an envelope that parses but lacks a valid
`service`, `procedure` or `data` field fails `RequestBodySchema` and
yields 400. -/
theorem malformed_envelope_statuses (sv : Server) (req : Req)
    (hseg : pathSegOne req.pathname = some "_api") :
    (req.rawBody = .error () →
        sv.handleRequest req =
          { status := 500, body := .text "Request cannot be parsed at the moment",
            handlerInvoked := false })
  ∧ (∀ v m, req.rawBody = .ok v → parseEnvelope v = .error m →
        sv.handleRequest req =
          { status := 400, body := .text m, handlerInvoked := false })
  ∧ (∀ fields,
        (jsGet fields "service" = none ∨ jsGet fields "procedure" = none ∨
          jsGet fields "data" = none ∨ jsGet fields "data" = some .null) →
        ∃ m, parseEnvelope (.obj fields) = .error m) := by
  refine ⟨?_, ?_, ?_⟩
  · intro hb
    simp [Server.handleRequest, hseg, hb]
  · intro v m hb hp
    simp [Server.handleRequest, hseg, hb, hp]
  · intro fields hf
    cases hpe : parseEnvelope (.obj fields) with
    | error m => exact ⟨m, rfl⟩
    | ok env =>
      exfalso
      obtain ⟨hp, hs, hd⟩ := parseEnvelope_ok_fields hpe
      rcases hf with h | h | h | h
      · simp [parseServiceField, h] at hs
      · simp [parseProcedureField, h] at hp
      · simp [parseDataField, h] at hd
      · simp [parseDataField, h] at hd

/-- C8 witness: the three amended behaviours at concrete requests. -/
theorem malformed_envelope_statuses_witness :
    sampleServer.handleRequest unparsableReq =
      { status := 500, body := .text "Request cannot be parsed at the moment",
        handlerInvoked := false }
  ∧ sampleServer.handleRequest missingDataReq =
      { status := 400, body := .text "Data must be present", handlerInvoked := false }
  ∧ ∃ m, parseEnvelope (.obj [("procedure", .str "GetUserById")]) = .error m :=
  ⟨(malformed_envelope_statuses sampleServer unparsableReq rfl).1 rfl,
   (malformed_envelope_statuses sampleServer missingDataReq rfl).2.1
     (.obj [("procedure", .str "GetUserById"), ("service", .str "Users")])
     "Data must be present" rfl rfl,
   (malformed_envelope_statuses sampleServer unparsableReq rfl).2.2
     [("procedure", .str "GetUserById")] (Or.inl rfl)⟩

/-- C8 counterexample: a call under the API prefix whose payload is not
parseable is answered with status 500, not 400 as the claim states. -/
theorem unparseable_payload_500_cex :
    sampleServer.handleRequest unparsableReq =
      { status := 500, body := .text "Request cannot be parsed at the moment",
        handlerInvoked := false }
  ∧ (sampleServer.handleRequest unparsableReq).status ≠ 400 :=
  ⟨rfl, by decide⟩

/-- C9 (amended): a request whose path's first segment is not `_api`
never reaches the dispatch handler — the installed route table (static
routes `/_api` and `/_api/webhook` plus the `fetch` fallback) answers it
with **404** — while the dispatch handler itself would answer 400 on
such a path. -/
theorem outside_prefix_statuses (sv : Server) (req : Req)
    (hseg : pathSegOne req.pathname ≠ some "_api") :
    (sv.routeRequest req).status = 404 ∧ (sv.handleRequest req).status = 400 := by
  constructor
  · have h1 : req.pathname ≠ "/_api" := by
      intro he
      apply hseg
      rw [he]
      rfl
    have h2 : req.pathname ≠ "/_api/webhook" := by
      intro he
      apply hseg
      rw [he]
      rfl
    rw [Server.routeRequest, if_neg h1, if_neg h2]
  · rw [Server.handleRequest, if_pos hseg]

/-- C9 witness: the concrete `/foo` request gets 404 from the route
table and would get 400 from the dispatch handler. -/
theorem outside_prefix_statuses_witness :
    (sampleServer.routeRequest fooReq).status = 404
  ∧ (sampleServer.handleRequest fooReq).status = 400 :=
  outside_prefix_statuses sampleServer fooReq (by decide)

/-- C9 counterexample: the server's response to the `/foo` request has
status 404 — not 400 as the claim states — because the fallback `fetch`
handler, not the dispatcher, answers paths outside the route table. -/
theorem outside_prefix_404_cex :
    (sampleServer.routeRequest fooReq).status = 404
  ∧ (sampleServer.routeRequest fooReq).status ≠ 400 :=
  ⟨rfl, by decide⟩

end Zynapse
